import Mathlib

/-!
Verification of the bankir money-transfer core against its specification.

The embedding models the backend's data rows (SQLAlchemy models) as Lean
structures, monetary values as integer cents (the DB columns are
`Numeric(20, 2)` fixed-point, so every value is an exact multiple of 0.01),
and the service functions of `transfer_service.py`, `ledger_service.py`,
`fraud_service.py`, `idempotency.py` and `api/v1/transfers.py` as pure
functions over an explicit database state.  Exceptions are modelled with
`Except`; SQLAlchemy's session commit/rollback discipline
(`transaction_context`) is modelled by returning the committed state on
success and the pre-attempt state on error.
-/

deriving instance DecidableEq for Except

namespace Bankir

/-- Status enum of `models/transaction.py` (`TransactionStatus`). -/
inductive TransactionStatus
  | pending
  | completed
  | failed
deriving Repr, DecidableEq

/-- Entry type enum of `models/ledger_entry.py` (`LedgerEntryType`). -/
inductive LedgerEntryType
  | debit
  | credit
deriving Repr, DecidableEq

/-- Row of the `accounts` table (`models/account.py`).  `balance` is in
cents: the column is `Numeric(20, 2)`. -/
structure Account where
  id : Nat
  user_id : Nat
  currency : String
  balance : Int
  is_deleted : Bool
deriving Repr, DecidableEq

/-- Row of the `transactions` table (`models/transaction.py`). -/
structure Transaction where
  id : Nat
  from_account_id : Nat
  to_account_id : Nat
  amount : Int
  currency : String
  status : TransactionStatus
  failure_reason : Option String
  retry_count : Nat
deriving Repr, DecidableEq

/-- Row of the `ledger_entries` table (`models/ledger_entry.py`). -/
structure LedgerEntry where
  transaction_id : Nat
  account_id : Nat
  entry_type : LedgerEntryType
  amount : Int
  currency : String
  balance_before : Int
  balance_after : Int
deriving Repr, DecidableEq

/-- Row of the audit-log table, restricted to the fields
`AuditService.log_transfer` fills that matter here. -/
structure AuditLog where
  user_id : Nat
  resource_id : Nat
  log_status : String
  error_message : Option String
deriving Repr, DecidableEq

/-- The relational state the transfer core reads and writes.  `next_tx_id`
models the autoincrement primary key handed out by `db.flush()`. -/
structure Db where
  accounts : List Account
  transactions : List Transaction
  ledger_entries : List LedgerEntry
  audit_logs : List AuditLog
  next_tx_id : Nat
deriving Repr, DecidableEq

/-- Request body `TransferCreate` of `schemas/transaction.py` (the
idempotency key travels separately in the endpoint model). -/
structure TransferCreate where
  from_account_id : Nat
  to_account_id : Nat
  amount : Int
  currency : String
deriving Repr, DecidableEq

/-- Python exceptions crossing the service boundary: `HTTPException`
carries an HTTP status code and a detail string; `dbError` stands for
SQLAlchemy's `OperationalError` / `IntegrityError` (both subclasses of
`SQLAlchemyError`, both retried by `transfer_money`); `otherError` is any
other exception. -/
inductive PyError
  | httpError (code : Nat) (detail : String)
  | dbError (message : String)
  | otherError (message : String)
deriving Repr, DecidableEq

/-- Python `str(e)` on a modelled exception. -/
def PyError.msg : PyError → String
  | .httpError _ d => d
  | .dbError m => m
  | .otherError m => m

/-- Python's `str.upper()` as used on currency codes: character-wise
uppercasing (structural, so it evaluates). -/
def strUpper (s : String) : String := ⟨s.data.map Char.toUpper⟩

/-- The `VALID_CURRENCIES` allow-list of `account_service.py`. -/
def VALID_CURRENCIES : List String :=
  ["USD", "EUR", "GBP", "JPY", "AUD", "CAD", "CHF", "CNY",
   "INR", "RUB", "BRL", "ZAR", "MXN", "SGD", "HKD", "NOK",
   "SEK", "DKK", "PLN", "TRY", "NZD", "KRW", "THB", "IDR"]

/-- Source-account lookup of `_execute_transfer` lines 133-137: the first
row matching `id == from_account_id`, `user_id == from_user_id`,
`is_deleted == False` (locked `FOR UPDATE`). -/
def findFromAccount (db : Db) (from_user_id : Nat) (t : TransferCreate) : Option Account :=
  db.accounts.find? fun a =>
    a.id == t.from_account_id && a.user_id == from_user_id && !a.is_deleted

/-- Destination-account lookup of `_execute_transfer` lines 146-149: the
first row matching `id == to_account_id`, `is_deleted == False` — note the
absence of any owner filter. -/
def findToAccount (db : Db) (t : TransferCreate) : Option Account :=
  db.accounts.find? fun a =>
    a.id == t.to_account_id && !a.is_deleted

/-- Ids of the account rows locked `FOR UPDATE` by `_execute_transfer`, in
acquisition order: the source-account query runs first (lines 133-137),
the destination-account query second (lines 146-149). -/
def lockAcquisitionOrder (db : Db) (from_user_id : Nat) (t : TransferCreate) : List Nat :=
  match findFromAccount db from_user_id t with
  | none => []
  | some fa =>
    match findToAccount db t with
    | none => [fa.id]
    | some ta => [fa.id, ta.id]

/-- The validation prefix of `_execute_transfer` (lines 131-182): account
lookups, same-account, currency-match and balance checks, in source
order.  Returns the two locked account rows on success. -/
def validateTransfer (db : Db) (from_user_id : Nat) (t : TransferCreate) :
    Except PyError (Account × Account) :=
  match findFromAccount db from_user_id t with
  | none => .error (.httpError 404 "Source account not found or does not belong to user")
  | some from_account =>
    match findToAccount db t with
    | none => .error (.httpError 404 "Destination account not found")
    | some to_account =>
      if from_account.id = to_account.id then
        .error (.httpError 400 "Cannot transfer to the same account")
      else if from_account.currency ≠ strUpper t.currency then
        .error (.httpError 400 "Currency mismatch (source account)")
      else if to_account.currency ≠ strUpper t.currency then
        .error (.httpError 400 "Currency mismatch (destination account)")
      else if from_account.balance < t.amount then
        .error (.httpError 400 "Insufficient balance")
      else
        .ok (from_account, to_account)

/-- In-place balance mutation `account.balance += delta` on the row with
the given id (SQLAlchemy mutates the mapped object; ids are untouched). -/
def applyDelta (accounts : List Account) (id : Nat) (delta : Int) : List Account :=
  accounts.map fun a => if a.id = id then { a with balance := a.balance + delta } else a

/-- `LedgerService.create_ledger_entries` (ledger_service.py lines 22-61),
called after the balances have been mutated: the before/after columns are
computed from the already-debited/credited balances, exactly as in the
source (`balance_before = from_account.balance + amount`, etc.). -/
def create_ledger_entries (txn : Transaction) (from_account to_account : Account)
    (amount : Int) : LedgerEntry × LedgerEntry :=
  (⟨txn.id, from_account.id, .debit, amount, txn.currency,
      from_account.balance + amount, from_account.balance⟩,
   ⟨txn.id, to_account.id, .credit, amount, txn.currency,
      to_account.balance - amount, to_account.balance⟩)

/-- `AuditService.log_transfer` restricted to the modelled fields. -/
def log_transfer (user_id transaction_id : Nat) (log_status : String)
    (error_message : Option String) : AuditLog :=
  ⟨user_id, transaction_id, log_status, error_message⟩

/-- Session state built by the success path of `_execute_transfer`
(lines 188-231): pending transaction created and flushed, balances
mutated, status set to completed, paired ledger entries and a success
audit row added.  Returns the transaction row and the session state. -/
def successState (db : Db) (from_user_id : Nat) (from_account to_account : Account)
    (t : TransferCreate) (attempt : Nat) : Transaction × Db :=
  let txn : Transaction :=
    ⟨db.next_tx_id, from_account.id, to_account.id, t.amount, strUpper t.currency,
      .completed, none, attempt - 1⟩
  let accounts' :=
    applyDelta (applyDelta db.accounts from_account.id (-t.amount)) to_account.id t.amount
  let from_mutated : Account := { from_account with balance := from_account.balance - t.amount }
  let to_mutated : Account := { to_account with balance := to_account.balance + t.amount }
  let entries := create_ledger_entries txn from_mutated to_mutated t.amount
  let audit := log_transfer from_user_id txn.id "success" none
  (txn,
    ⟨accounts', db.transactions ++ [txn],
      db.ledger_entries ++ [entries.1, entries.2],
      db.audit_logs ++ [audit], db.next_tx_id + 1⟩)

/-- Session state at the re-raise point of the failure path of
`_execute_transfer` (lines 233-256): balances mutated then restored to
their pre-attempt values, the transaction row marked failed with the
exception text, a failure audit row added — all still uncommitted. -/
def failedSessionState (db : Db) (from_user_id : Nat) (from_account to_account : Account)
    (t : TransferCreate) (attempt : Nat) (e : PyError) : Db :=
  let txn : Transaction :=
    ⟨db.next_tx_id, from_account.id, to_account.id, t.amount, strUpper t.currency,
      .failed, some e.msg, attempt - 1⟩
  let audit := log_transfer from_user_id txn.id "failed" (some e.msg)
  ⟨db.accounts, db.transactions ++ [txn], db.ledger_entries,
    db.audit_logs ++ [audit], db.next_tx_id + 1⟩

/-- One run of the body of the `with transaction_context(db)` block of
`_execute_transfer`.  `inj` injects a failure into the inner try block
(lines 200-232): `some e` means a step after the balance mutation — the
ledger write or the audit write — raises `e`.  Returns the result together
with the (still uncommitted) session state. -/
def executeTransferUnit (inj : Option PyError) (db : Db) (from_user_id : Nat)
    (t : TransferCreate) (attempt : Nat) : Except PyError Transaction × Db :=
  match validateTransfer db from_user_id t with
  | .error e => (.error e, db)
  | .ok (from_account, to_account) =>
    match inj with
    | none =>
      let r := successState db from_user_id from_account to_account t attempt
      (.ok r.1, r.2)
    | some e =>
      (.error e, failedSessionState db from_user_id from_account to_account t attempt e)

/-- The `transaction_context` context manager (transfer_service.py lines
19-28): commit the session state on normal exit, roll the whole session
back to the pre-attempt committed state on any exception. -/
def transaction_context (db : Db) (unit : Except PyError α × Db) : Except PyError α × Db :=
  match unit with
  | (.ok a, session) => (.ok a, session)
  | (.error e, _) => (.error e, db)

/-- `TransferService._execute_transfer`: the atomic unit run under
`transaction_context`. -/
def executeTransfer (inj : Option PyError) (db : Db) (from_user_id : Nat)
    (t : TransferCreate) (attempt : Nat) : Except PyError Transaction × Db :=
  transaction_context db (executeTransferUnit inj db from_user_id t attempt)

/-- `TransferService.MAX_RETRIES`. -/
def MAX_RETRIES : Nat := 3

/-- Retry classification of `transfer_money` lines 97-110: only
`OperationalError` / `IntegrityError` are caught and retried; every other
exception is re-raised immediately. -/
def isRetryable : PyError → Bool
  | .dbError _ => true
  | _ => false

/-- The `for attempt in range(MAX_RETRIES)` loop of `transfer_money`
(lines 84-117), recursing over the remaining attempt indices.  On the last
attempt a retryable error is re-raised as-is (line 106); the post-loop
fallback `HTTPException` (lines 113-117) is the `[]` case. -/
def runAttempts (inj : Nat → Option PyError) (db : Db) (from_user_id : Nat)
    (t : TransferCreate) : List Nat → Except PyError Transaction × Db
  | [] => (.error (.httpError 500 "Transfer failed after multiple retry attempts"), db)
  | attempt :: rest =>
    match executeTransfer (inj attempt) db from_user_id t (attempt + 1) with
    | (.ok txn, db') => (.ok txn, db')
    | (.error e, db') =>
      if isRetryable e then
        if rest.isEmpty then (.error e, db')
        else runAttempts inj db from_user_id t rest
      else (.error e, db')

/-- Outcome of one fraud rule (`fraud_service.py` returns dicts
`{allowed, reason?}`). -/
structure FraudCheckResult where
  allowed : Bool
  reason : Option String
deriving Repr, DecidableEq

/-- `FraudService.MIN_TRANSFER_AMOUNT` = Decimal("0.01"), in cents. -/
def MIN_TRANSFER_AMOUNT : Int := 1

/-- `FraudService.MAX_TRANSFER_AMOUNT` = Decimal("1000000.00"), in cents. -/
def MAX_TRANSFER_AMOUNT : Int := 100000000

/-- `FraudService._check_amount_limits` (fraud_service.py lines 66-81). -/
def check_amount_limits (amount : Int) : FraudCheckResult :=
  if amount < MIN_TRANSFER_AMOUNT then
    ⟨false, some "Amount too small. Minimum: 0.01"⟩
  else if amount > MAX_TRANSFER_AMOUNT then
    ⟨false, some "Amount exceeds maximum transfer limit: 1000000.00"⟩
  else
    ⟨true, none⟩

/-- The first-failure-wins iteration over the checks dict of
`FraudService.check_transfer_limits` (lines 34-64); Python dicts preserve
insertion order. -/
def firstBlocked : List FraudCheckResult → FraudCheckResult
  | [] => ⟨true, none⟩
  | c :: rest => if c.allowed then firstBlocked rest else c

/-- `FraudService.check_transfer_limits`: the amount rule is evaluated
here; the daily-amount, frequency and IP rules read the clock, the
transaction history and the shared counter store, so their outcomes enter
as parameters. -/
def check_transfer_limits (amount : Int)
    (daily_amount transaction_frequency ip_check : FraudCheckResult) : FraudCheckResult :=
  firstBlocked [check_amount_limits amount, daily_amount, transaction_frequency, ip_check]

/-- `TransferService.transfer_money` (lines 35-117): currency validation,
fraud gate, then the bounded retry loop.  The fraud verdict enters as a
parameter (its DB/clock/counter-dependent parts are modelled in
`check_transfer_limits`).  A fraud block writes an audit row to the
session, but the raised `HTTPException` leaves `get_db` to close the
session uncommitted, so the committed state is unchanged. -/
def transfer_money (inj : Nat → Option PyError) (db : Db) (from_user_id : Nat)
    (t : TransferCreate) (fraud : FraudCheckResult) : Except PyError Transaction × Db :=
  if ¬ VALID_CURRENCIES.contains (strUpper t.currency) then
    (.error (.httpError 400 ("Invalid currency code: " ++ t.currency)), db)
  else if fraud.allowed = false then
    (.error (.httpError 403 (fraud.reason.getD "Transfer blocked by fraud detection")), db)
  else
    runAttempts inj db from_user_id t (List.range MAX_RETRIES)

/-- The application-level exception handlers of `main.py` (lines 80-107):
`HTTPException` is rendered as-is by FastAPI, any `SQLAlchemyError` becomes
a generic 500 "Database error occurred", anything else a generic 500
"Internal server error". -/
structure JsonResponse where
  status_code : Nat
  detail : String
deriving Repr, DecidableEq

/-- Response produced by the app for an exception escaping the endpoint. -/
def appExceptionResponse : PyError → JsonResponse
  | .httpError c d => ⟨c, d⟩
  | .dbError _ => ⟨500, "Database error occurred"⟩
  | .otherError _ => ⟨500, "Internal server error"⟩

/-- `LedgerService.verify_ledger_balance` result dict (lines 99-106). -/
structure VerifyResult where
  valid : Bool
  account_balance : Int
  ledger_balance : Int
  difference : Int
  debits : Int
  credits : Int
deriving Repr, DecidableEq

/-- Sum of the amounts of the account's debit entries (the first aggregate
query of `verify_ledger_balance`, lines 79-84). -/
def debitSum (db : Db) (account_id : Nat) : Int :=
  ((db.ledger_entries.filter fun e =>
      e.account_id == account_id && e.entry_type == LedgerEntryType.debit).map
    (·.amount)).sum

/-- Sum of the amounts of the account's credit entries (lines 86-91). -/
def creditSum (db : Db) (account_id : Nat) : Int :=
  ((db.ledger_entries.filter fun e =>
      e.account_id == account_id && e.entry_type == LedgerEntryType.credit).map
    (·.amount)).sum

/-- `LedgerService.verify_ledger_balance` (ledger_service.py lines
68-106): `none` models the `{"valid": False, "error": "Account not
found"}` early return; otherwise the ledger balance is credits − debits
and the match tolerance is `abs(difference) < Decimal("0.01")`, i.e.
strictly less than one cent. -/
def verify_ledger_balance (db : Db) (account_id : Nat) : Option VerifyResult :=
  match db.accounts.find? (fun a => a.id == account_id) with
  | none => none
  | some account =>
    let debits := debitSum db account_id
    let credits := creditSum db account_id
    let ledger_balance := credits - debits
    some ⟨|account.balance - ledger_balance| < 1,
      account.balance, ledger_balance, |account.balance - ledger_balance|,
      debits, credits⟩

/-- Serialized `TransactionResponse` (schemas/transaction.py) as cached by
the idempotency layer; the JSON round trip through `json.dumps` /
`json.loads` is the identity on these fields. -/
structure TransactionResponse where
  id : Nat
  from_account_id : Nat
  to_account_id : Nat
  amount : Int
  currency : String
  response_status : TransactionStatus
deriving Repr, DecidableEq

/-- `TransactionResponse.model_validate(transaction)`. -/
def toResponse (txn : Transaction) : TransactionResponse :=
  ⟨txn.id, txn.from_account_id, txn.to_account_id, txn.amount, txn.currency, txn.status⟩

/-- Redis keys used by `IdempotencyService`: the strings
`idempotency:{user_id}:{key}` and `idempotency:{user_id}:{key}:processing`
form an injective encoding of these two shapes. -/
inductive CacheKey
  | idem (user_id : Nat) (key : String)
  | processing (user_id : Nat) (key : String)
deriving Repr, DecidableEq

/-- Values stored in Redis by the idempotency layer: the `"1"` processing
marker or a serialized response. -/
inductive CacheVal
  | marker
  | response (r : TransactionResponse)
deriving Repr, DecidableEq

/-- The Redis store seen through `core/redis_client.py`.  `set_fails`
models the write path being down: `RedisClient.set` swallows
`redis.RedisError` and returns `False`, so a failed write simply leaves
the store unchanged. -/
structure Kv where
  entries : List (CacheKey × CacheVal)
  set_fails : Bool
deriving Repr, DecidableEq

/-- Value bound to a key in an association list (Redis `GET`). -/
def kvLookup : List (CacheKey × CacheVal) → CacheKey → Option CacheVal
  | [], _ => none
  | e :: rest, k => if e.1 = k then some e.2 else kvLookup rest k

/-- Removal of every binding of a key (Redis `DEL` / overwrite). -/
def kvRemove : List (CacheKey × CacheVal) → CacheKey → List (CacheKey × CacheVal)
  | [], _ => []
  | e :: rest, k => if e.1 = k then kvRemove rest k else e :: kvRemove rest k

/-- `RedisClient.get`. -/
def kvGet (kv : Kv) (k : CacheKey) : Option CacheVal :=
  kvLookup kv.entries k

/-- `RedisClient.set` (TTLs are not modelled: no time passes between the
two sequential calls considered here). -/
def kvSet (kv : Kv) (k : CacheKey) (v : CacheVal) : Kv :=
  if kv.set_fails then kv
  else { kv with entries := (k, v) :: kvRemove kv.entries k }

/-- `RedisClient.delete`. -/
def kvDelete (kv : Kv) (k : CacheKey) : Kv :=
  { kv with entries := kvRemove kv.entries k }

/-- `RedisClient.exists`. -/
def kvExists (kv : Kv) (k : CacheKey) : Bool :=
  (kvGet kv k).isSome

/-- `IdempotencyService.check_key` (idempotency.py lines 17-58) in the
sequential setting: the `time.sleep(0.1)` re-check reads the same state.
Returns a cached response when present, raises 409 when only a processing
marker exists, `none` otherwise. -/
def check_key (kv : Kv) (user_id : Nat) (key : String) :
    Except PyError (Option TransactionResponse) :=
  if kvExists kv (.processing user_id key) then
    match kvGet kv (.idem user_id key) with
    | some (.response r) => .ok (some r)
    | _ => .error (.httpError 409
        "A request with this idempotency key is already being processed")
  else
    match kvGet kv (.idem user_id key) with
    | some (.response r) => .ok (some r)
    | _ => .ok none

/-- `IdempotencyService.mark_processing` (lines 60-70). -/
def mark_processing (kv : Kv) (user_id : Nat) (key : String) : Kv :=
  kvSet kv (.processing user_id key) .marker

/-- `IdempotencyService.clear_processing` (lines 72-80). -/
def clear_processing (kv : Kv) (user_id : Nat) (key : String) : Kv :=
  kvDelete kv (.processing user_id key)

/-- `IdempotencyService.store_response` (lines 82-102): any failure while
serializing or writing is swallowed (`except Exception: pass`, and
`RedisClient.set` itself returns `False` on `redis.RedisError`). -/
def store_response (kv : Kv) (user_id : Nat) (key : String)
    (r : TransactionResponse) : Kv :=
  kvSet kv (.idem user_id key) (.response r)

/-- The `POST /transfers` endpoint `transfer_money` of
`api/v1/transfers.py` (lines 17-87): key-length validation, cache check,
processing marker, the transfer itself, then response caching and marker
cleanup (on error: marker cleanup and re-raise). -/
def transferEndpoint (inj : Nat → Option PyError) (fraud : FraudCheckResult)
    (kv : Kv) (db : Db) (user_id : Nat) (key : Option String) (t : TransferCreate) :
    Except PyError TransactionResponse × Kv × Db :=
  match key with
  | none =>
    match transfer_money inj db user_id t fraud with
    | (.ok txn, db') => (.ok (toResponse txn), kv, db')
    | (.error e, db') => (.error e, kv, db')
  | some k =>
    if k.length > 255 then
      (.error (.httpError 400 "Idempotency key must be 255 characters or less"), kv, db)
    else
      match check_key kv user_id k with
      | .error e => (.error e, kv, db)
      | .ok (some r) => (.ok r, kv, db)
      | .ok none =>
        let kv1 := mark_processing kv user_id k
        match transfer_money inj db user_id t fraud with
        | (.ok txn, db') =>
          let r := toResponse txn
          let kv2 := store_response kv1 user_id k r
          let kv3 := clear_processing kv2 user_id k
          (.ok r, kv3, db')
        | (.error e, db') =>
          (.error e, clear_processing kv1 user_id k, db')

/-- Cache state after a successful keyed call of the endpoint. -/
def endpointCacheAfter (kv : Kv) (user_id : Nat) (key : String)
    (r : TransactionResponse) : Kv :=
  clear_processing (store_response (mark_processing kv user_id key) user_id key r)
    user_id key

/-- Balance of the (first) account row with the given id, 0 if absent. -/
def balanceOf (db : Db) (id : Nat) : Int :=
  ((db.accounts.find? fun a => a.id == id).map (·.balance)).getD 0

/-- Total of the balances of a list of account rows. -/
def sumAccountBalances (l : List Account) : Int := (l.map (·.balance)).sum

/-- Global sum of all account balances of a database state. -/
def sumBalances (db : Db) : Int := sumAccountBalances db.accounts

theorem applyDelta_nil (i : Nat) (d : Int) : applyDelta [] i d = [] := rfl

theorem applyDelta_cons (a : Account) (rest : List Account) (i : Nat) (d : Int) :
    applyDelta (a :: rest) i d =
      (if a.id = i then { a with balance := a.balance + d } else a) :: applyDelta rest i d :=
  rfl

theorem applyDelta_id_map (i : Nat) (d : Int) :
    ∀ l : List Account, (applyDelta l i d).map (·.id) = l.map (·.id)
  | [] => rfl
  | a :: rest => by
    rw [applyDelta_cons, List.map_cons, List.map_cons, applyDelta_id_map i d rest]
    congr 1
    split <;> rfl

theorem applyDelta_unchanged (i : Nat) (d : Int) :
    ∀ l : List Account, (∀ a ∈ l, a.id ≠ i) → applyDelta l i d = l
  | [], _ => rfl
  | a :: rest, h => by
    rw [applyDelta_cons, if_neg (h a (by simp)),
      applyDelta_unchanged i d rest fun b hb => h b (List.mem_cons_of_mem a hb)]

theorem sumAccountBalances_cons (a : Account) (rest : List Account) :
    sumAccountBalances (a :: rest) = a.balance + sumAccountBalances rest := by
  simp [sumAccountBalances]

theorem sum_applyDelta (i : Nat) (d : Int) :
    ∀ l : List Account, (l.map (·.id)).Nodup → (∃ a ∈ l, a.id = i) →
      sumAccountBalances (applyDelta l i d) = sumAccountBalances l + d
  | [], _, hex => absurd hex (by simp)
  | a :: rest, hnd, hex => by
    have hnd' : (rest.map (·.id)).Nodup := (List.nodup_cons.mp (by simpa using hnd)).2
    have hnotin : a.id ∉ rest.map (·.id) := (List.nodup_cons.mp (by simpa using hnd)).1
    rw [applyDelta_cons]
    by_cases h : a.id = i
    · have hrest : ∀ b ∈ rest, b.id ≠ i := by
        intro b hb hbi
        exact hnotin (by rw [h, ← hbi]; exact List.mem_map_of_mem _ hb)
      rw [if_pos h, applyDelta_unchanged i d rest hrest,
        sumAccountBalances_cons, sumAccountBalances_cons]
      show a.balance + d + sumAccountBalances rest = a.balance + sumAccountBalances rest + d
      ring
    · have hex' : ∃ b ∈ rest, b.id = i := by
        rcases hex with ⟨b, hb, hbi⟩
        rcases List.mem_cons.mp hb with rfl | hb'
        · exact absurd hbi h
        · exact ⟨b, hb', hbi⟩
      rw [if_neg h, sumAccountBalances_cons, sumAccountBalances_cons,
        sum_applyDelta i d rest hnd' hex']
      ring

theorem find?_applyDelta_ne (i j : Nat) (d : Int) (hne : j ≠ i) :
    ∀ l : List Account,
      (applyDelta l i d).find? (fun a => a.id == j) = l.find? (fun a => a.id == j)
  | [] => rfl
  | a :: rest => by
    rw [applyDelta_cons]
    by_cases h : a.id = i
    · have hp : ¬ ((a.id == j) = true) := by simp [h]; exact fun e => hne e.symm
      rw [if_pos h,
        @List.find?_cons_of_neg _ (fun a => a.id == j)
          { a with balance := a.balance + d } (applyDelta rest i d) hp,
        @List.find?_cons_of_neg _ (fun a => a.id == j) a rest hp,
        find?_applyDelta_ne i j d hne rest]
    · rw [if_neg h]
      cases hp : (a.id == j) with
      | true =>
        rw [@List.find?_cons_of_pos _ (fun a => a.id == j) a (applyDelta rest i d) hp,
          @List.find?_cons_of_pos _ (fun a => a.id == j) a rest hp]
      | false =>
        rw [@List.find?_cons_of_neg _ (fun a => a.id == j) a (applyDelta rest i d) (by simp [hp]),
          @List.find?_cons_of_neg _ (fun a => a.id == j) a rest (by simp [hp]),
          find?_applyDelta_ne i j d hne rest]

theorem find?_applyDelta_self (i : Nat) (d : Int) :
    ∀ l : List Account,
      (applyDelta l i d).find? (fun a => a.id == i) =
        (l.find? (fun a => a.id == i)).map fun a => { a with balance := a.balance + d }
  | [] => rfl
  | a :: rest => by
    rw [applyDelta_cons]
    by_cases h : a.id = i
    · have hp : (a.id == i) = true := by simp [h]
      rw [if_pos h,
        @List.find?_cons_of_pos _ (fun a => a.id == i)
          { a with balance := a.balance + d } (applyDelta rest i d) hp,
        @List.find?_cons_of_pos _ (fun a => a.id == i) a rest hp]
      rfl
    · have hp : ¬ ((a.id == i) = true) := by simp [h]
      rw [if_neg h,
        @List.find?_cons_of_neg _ (fun a => a.id == i) a (applyDelta rest i d) hp,
        @List.find?_cons_of_neg _ (fun a => a.id == i) a rest hp,
        find?_applyDelta_self i d rest]

theorem validateTransfer_ok {db : Db} {uid : Nat} {t : TransferCreate} {fa ta : Account}
    (h : validateTransfer db uid t = .ok (fa, ta)) :
    findFromAccount db uid t = some fa ∧ findToAccount db t = some ta ∧
    fa.id ≠ ta.id ∧ fa.currency = strUpper t.currency ∧
    ta.currency = strUpper t.currency ∧ t.amount ≤ fa.balance := by
  unfold validateTransfer at h
  cases h1 : findFromAccount db uid t <;> rw [h1] at h
  case none => exact absurd h (by simp)
  case some a =>
    cases h2 : findToAccount db t <;> rw [h2] at h
    case none => exact absurd h (by simp)
    case some b =>
      by_cases hid : a.id = b.id
      · simp [hid] at h
      by_cases hc1 : a.currency ≠ strUpper t.currency
      · simp [hid, hc1] at h
      by_cases hc2 : b.currency ≠ strUpper t.currency
      · simp [hid, hc1, hc2] at h
      by_cases hbal : a.balance < t.amount
      · simp [hid, hc1, hc2, hbal] at h
      · simp [hid, hc1, hc2, hbal] at h
        obtain ⟨hfa, hta⟩ := h
        subst hfa; subst hta
        exact ⟨rfl, rfl, hid, not_not.mp (by exact hc1), not_not.mp (by exact hc2),
          Int.not_lt.mp hbal⟩

theorem executeTransferUnit_ok {inj : Option PyError} {db : Db} {uid : Nat}
    {t : TransferCreate} {n : Nat} {txn : Transaction} {session : Db}
    (h : executeTransferUnit inj db uid t n = (.ok txn, session)) :
    inj = none ∧ ∃ fa ta, validateTransfer db uid t = .ok (fa, ta) ∧
      (txn, session) = successState db uid fa ta t n := by
  unfold executeTransferUnit at h
  cases hv : validateTransfer db uid t <;> rw [hv] at h
  case error e => simp at h
  case ok p =>
    obtain ⟨fa, ta⟩ := p
    cases inj with
    | some e => simp at h
    | none =>
      refine ⟨rfl, fa, ta, rfl, ?_⟩
      simp at h
      rw [← h.1, ← h.2]

theorem executeTransfer_ok {inj : Option PyError} {db db' : Db} {uid : Nat}
    {t : TransferCreate} {n : Nat} {txn : Transaction}
    (h : executeTransfer inj db uid t n = (.ok txn, db')) :
    inj = none ∧ ∃ fa ta, validateTransfer db uid t = .ok (fa, ta) ∧
      (txn, db') = successState db uid fa ta t n := by
  unfold executeTransfer transaction_context at h
  cases hu : executeTransferUnit inj db uid t n with
  | mk r session =>
    rw [hu] at h
    cases r with
    | error e => simp at h
    | ok txn' =>
      simp at h
      obtain ⟨hinj, fa, ta, hv, hs⟩ := executeTransferUnit_ok hu
      exact ⟨hinj, fa, ta, hv, by rw [← h.1, ← h.2]; exact hs⟩

theorem executeTransfer_inj_error {db : Db} {uid : Nat} {t : TransferCreate}
    {fa ta : Account} {e : PyError} {n : Nat}
    (hv : validateTransfer db uid t = .ok (fa, ta)) :
    executeTransfer (some e) db uid t n = (.error e, db) := by
  unfold executeTransfer executeTransferUnit transaction_context
  rw [hv]

theorem runAttempts_ok {inj : Nat → Option PyError} {db db' : Db} {uid : Nat}
    {t : TransferCreate} {txn : Transaction} :
    ∀ {l : List Nat}, runAttempts inj db uid t l = (.ok txn, db') →
      ∃ a, executeTransfer (inj a) db uid t (a + 1) = (.ok txn, db')
  | [], h => by simp [runAttempts] at h
  | a :: rest, h => by
    rw [runAttempts] at h
    cases he : executeTransfer (inj a) db uid t (a + 1) with
    | mk r s =>
      rw [he] at h
      cases r with
      | ok txn' =>
        simp at h
        exact ⟨a, by rw [he, h.1, h.2]⟩
      | error e =>
        simp at h
        split at h
        · split at h
          · simp at h
          · exact runAttempts_ok h
        · simp at h

theorem transfer_money_ok {inj : Nat → Option PyError} {db db' : Db} {uid : Nat}
    {t : TransferCreate} {fraud : FraudCheckResult} {txn : Transaction}
    (h : transfer_money inj db uid t fraud = (.ok txn, db')) :
    ∃ fa ta n, validateTransfer db uid t = .ok (fa, ta) ∧
      (txn, db') = successState db uid fa ta t n := by
  unfold transfer_money at h
  split at h
  · simp at h
  split at h
  · simp at h
  obtain ⟨a, ha⟩ := runAttempts_ok h
  obtain ⟨_, fa, ta, hv, hs⟩ := executeTransfer_ok ha
  exact ⟨fa, ta, a + 1, hv, hs⟩

theorem successState_db_transactions (db : Db) (uid : Nat) (fa ta : Account)
    (t : TransferCreate) (n : Nat) :
    (successState db uid fa ta t n).2.transactions =
      db.transactions ++ [(successState db uid fa ta t n).1] := rfl

theorem successState_txn_amount (db : Db) (uid : Nat) (fa ta : Account)
    (t : TransferCreate) (n : Nat) :
    (successState db uid fa ta t n).1.amount = t.amount := rfl

theorem successState_txn_status (db : Db) (uid : Nat) (fa ta : Account)
    (t : TransferCreate) (n : Nat) :
    (successState db uid fa ta t n).1.status = .completed := rfl

theorem successState_accounts (db : Db) (uid : Nat) (fa ta : Account)
    (t : TransferCreate) (n : Nat) :
    (successState db uid fa ta t n).2.accounts =
      applyDelta (applyDelta db.accounts fa.id (-t.amount)) ta.id t.amount := rfl

theorem kvSet_set_fails (kv : Kv) (k : CacheKey) (v : CacheVal) :
    (kvSet kv k v).set_fails = kv.set_fails := by
  unfold kvSet; split <;> rfl

theorem kvLookup_remove_self (k : CacheKey) :
    ∀ l : List (CacheKey × CacheVal), kvLookup (kvRemove l k) k = none
  | [] => rfl
  | e :: rest => by
    unfold kvRemove
    split
    · exact kvLookup_remove_self k rest
    · unfold kvLookup
      rw [if_neg ‹¬ e.1 = k›]
      exact kvLookup_remove_self k rest

theorem kvLookup_cons (e : CacheKey × CacheVal) (rest : List (CacheKey × CacheVal))
    (k : CacheKey) :
    kvLookup (e :: rest) k = if e.1 = k then some e.2 else kvLookup rest k := rfl

theorem kvLookup_remove_ne {k k' : CacheKey} (hne : k' ≠ k) :
    ∀ l : List (CacheKey × CacheVal), kvLookup (kvRemove l k) k' = kvLookup l k'
  | [] => rfl
  | e :: rest => by
    unfold kvRemove
    split
    · rw [kvLookup_cons]
      have he : e.1 = k := ‹e.1 = k›
      rw [if_neg (fun hh : e.1 = k' => hne (hh ▸ he))]
      exact kvLookup_remove_ne hne rest
    · rw [kvLookup_cons, kvLookup_cons]
      by_cases hk : e.1 = k'
      · rw [if_pos hk, if_pos hk]
      · rw [if_neg hk, if_neg hk]
        exact kvLookup_remove_ne hne rest

theorem kvGet_set_self (kv : Kv) (k : CacheKey) (v : CacheVal)
    (hok : kv.set_fails = false) : kvGet (kvSet kv k v) k = some v := by
  unfold kvSet
  rw [if_neg (by rw [hok]; exact Bool.false_ne_true)]
  unfold kvGet kvLookup
  rw [if_pos rfl]

theorem kvGet_set_ne (kv : Kv) (k k' : CacheKey) (v : CacheVal) (hne : k' ≠ k) :
    kvGet (kvSet kv k v) k' = kvGet kv k' := by
  unfold kvSet
  split
  · rfl
  · unfold kvGet
    rw [kvLookup_cons, if_neg (fun hh : k = k' => hne hh.symm)]
    exact kvLookup_remove_ne hne kv.entries

theorem kvGet_delete_self (kv : Kv) (k : CacheKey) :
    kvGet (kvDelete kv k) k = none :=
  kvLookup_remove_self k kv.entries

theorem kvGet_delete_ne (kv : Kv) (k k' : CacheKey) (hne : k' ≠ k) :
    kvGet (kvDelete kv k) k' = kvGet kv k' :=
  kvLookup_remove_ne hne kv.entries

theorem endpointCacheAfter_get_processing (kv : Kv) (uid : Nat) (k : String)
    (r : TransactionResponse) :
    kvGet (endpointCacheAfter kv uid k r) (.processing uid k) = none :=
  kvGet_delete_self _ _

theorem endpointCacheAfter_get_idem (kv : Kv) (uid : Nat) (k : String)
    (r : TransactionResponse) (hok : kv.set_fails = false) :
    kvGet (endpointCacheAfter kv uid k r) (.idem uid k) = some (.response r) := by
  unfold endpointCacheAfter clear_processing store_response mark_processing
  rw [kvGet_delete_ne _ _ _ (by simp)]
  exact kvGet_set_self _ _ _ (by rw [kvSet_set_fails]; exact hok)

theorem endpoint_first_call {inj : Nat → Option PyError} {fraud : FraudCheckResult}
    {kv : Kv} {db db1 : Db} {uid : Nat} {k : String} {t : TransferCreate} {txn : Transaction}
    (hklen : ¬ k.length > 255)
    (hnoproc : kvGet kv (.processing uid k) = none)
    (hnocache : kvGet kv (.idem uid k) = none)
    (hxfer : transfer_money inj db uid t fraud = (.ok txn, db1)) :
    transferEndpoint inj fraud kv db uid (some k) t =
      (.ok (toResponse txn), endpointCacheAfter kv uid k (toResponse txn), db1) := by
  have hck : check_key kv uid k = .ok none := by
    simp [check_key, kvExists, hnoproc, hnocache]
  simp only [transferEndpoint, if_neg hklen, hck, hxfer]
  rfl

theorem endpoint_replay_call {inj : Nat → Option PyError} {fraud : FraudCheckResult}
    {kv : Kv} {db1 : Db} {uid : Nat} {k : String} {t : TransferCreate} {r : TransactionResponse}
    (hklen : ¬ k.length > 255)
    (hcached : kvGet kv (.idem uid k) = some (.response r))
    (hnoproc : kvGet kv (.processing uid k) = none) :
    transferEndpoint inj fraud kv db1 uid (some k) t = (.ok r, kv, db1) := by
  have hck : check_key kv uid k = .ok (some r) := by
    simp [check_key, kvExists, hnoproc, hcached]
  simp only [transferEndpoint, if_neg hklen, hck]

/-! ## Concrete fixtures

Small database states used by the closed theorems and the witnesses.  All
amounts are cents: 10000 = 100.00, 4000 = 40.00. -/

/-- Account 1 (owner `u`, USD, 100.00) and account 2 (owner `v`, USD, 0.00). -/
def twoAccountDb (u v : Nat) : Db :=
  ⟨[⟨1, u, "USD", 10000, false⟩, ⟨2, v, "USD", 0, false⟩], [], [], [], 1⟩

/-- Transfer of 40.00 USD from account 1 to account 2. -/
def exTransfer : TransferCreate := ⟨1, 2, 4000, "USD"⟩

/-- The transaction row the fixture transfer commits. -/
def exTxn : Transaction := ⟨1, 1, 2, 4000, "USD", .completed, none, 0⟩

/-- The committed state after the fixture transfer. -/
def twoAccountDbAfter (u v : Nat) : Db :=
  ⟨[⟨1, u, "USD", 6000, false⟩, ⟨2, v, "USD", 4000, false⟩], [exTxn],
    [⟨1, 1, .debit, 4000, "USD", 10000, 6000⟩, ⟨1, 2, .credit, 4000, "USD", 0, 4000⟩],
    [⟨u, 1, "success", none⟩], 2⟩

/-- Like `twoAccountDb` but the destination account is soft-deleted. -/
def delDestDb (u v : Nat) : Db :=
  ⟨[⟨1, u, "USD", 10000, false⟩, ⟨2, v, "USD", 0, true⟩], [], [], [], 1⟩

/-- User 7 owns account 2 (the higher id) and sends to account 1. -/
def reverseDb : Db :=
  ⟨[⟨1, 8, "USD", 0, false⟩, ⟨2, 7, "USD", 10000, false⟩], [], [], [], 1⟩

/-- Transfer of 40.00 USD from account 2 to account 1. -/
def reverseTransfer : TransferCreate := ⟨2, 1, 4000, "USD"⟩

/-! ## Claim C1 -/

/-- C1: every transfer that returns a completed Transaction leaves the
source balance lower by the amount (`after + amount = before`), the
destination balance higher by the amount (`after - amount = before`), and
the global sum of account balances unchanged
(`transfer_service.py` lines 200-204). -/
theorem transfer_conservation (inj : Option PyError) (db db' : Db) (uid n : Nat)
    (t : TransferCreate) (txn : Transaction)
    (hnd : (db.accounts.map (·.id)).Nodup)
    (h : executeTransfer inj db uid t n = (.ok txn, db')) :
    txn.status = .completed ∧
    balanceOf db' t.from_account_id + txn.amount = balanceOf db t.from_account_id ∧
    balanceOf db' t.to_account_id - txn.amount = balanceOf db t.to_account_id ∧
    sumBalances db' = sumBalances db := by
  obtain ⟨hinj, fa, ta, hv, hs⟩ := executeTransfer_ok h
  obtain ⟨hfrom, hto, hne, _, _, _⟩ := validateTransfer_ok hv
  have hdb' : db' = (successState db uid fa ta t n).2 := congrArg Prod.snd hs
  have htxn : txn = (successState db uid fa ta t n).1 := congrArg Prod.fst hs
  have hfrom' : db.accounts.find?
      (fun a => a.id == t.from_account_id && a.user_id == uid && !a.is_deleted) = some fa :=
    hfrom
  have hfa_mem : fa ∈ db.accounts := List.mem_of_find?_eq_some hfrom'
  have hfa_pred := List.find?_some hfrom'
  have hfa_id : fa.id = t.from_account_id := by
    simp only [Bool.and_eq_true, beq_iff_eq] at hfa_pred
    exact hfa_pred.1.1
  have hto' : db.accounts.find?
      (fun a => a.id == t.to_account_id && !a.is_deleted) = some ta := hto
  have hta_mem : ta ∈ db.accounts := List.mem_of_find?_eq_some hto'
  have hta_pred := List.find?_some hto'
  have hta_id : ta.id = t.to_account_id := by
    simp only [Bool.and_eq_true, beq_iff_eq] at hta_pred
    exact hta_pred.1
  have haccts : db'.accounts =
      applyDelta (applyDelta db.accounts fa.id (-t.amount)) ta.id t.amount := by
    rw [hdb', successState_accounts]
  have hamount : txn.amount = t.amount := by rw [htxn, successState_txn_amount]
  have hstatus : txn.status = .completed := by rw [htxn, successState_txn_status]
  refine ⟨hstatus, ?_, ?_, ?_⟩
  · have hfind : (db.accounts.find? fun a => a.id == fa.id).isSome :=
      List.find?_isSome.mpr ⟨fa, hfa_mem, by simp⟩
    obtain ⟨x, hx⟩ := Option.isSome_iff_exists.mp hfind
    have hne' : t.from_account_id ≠ ta.id := hfa_id ▸ hne
    unfold balanceOf
    rw [haccts, hamount,
      find?_applyDelta_ne ta.id t.from_account_id t.amount hne' _, ← hfa_id,
      find?_applyDelta_self fa.id (-t.amount) db.accounts, hx]
    simp
  · have hfind : (db.accounts.find? fun a => a.id == ta.id).isSome :=
      List.find?_isSome.mpr ⟨ta, hta_mem, by simp⟩
    obtain ⟨x, hx⟩ := Option.isSome_iff_exists.mp hfind
    unfold balanceOf
    rw [haccts, hamount, ← hta_id,
      find?_applyDelta_self ta.id t.amount _,
      find?_applyDelta_ne fa.id ta.id (-t.amount) (fun e => hne e.symm) db.accounts,
      hx]
    simp
  · have hmem1 : ∃ a ∈ db.accounts, a.id = fa.id := ⟨fa, hfa_mem, rfl⟩
    have hnd1 : ((applyDelta db.accounts fa.id (-t.amount)).map (·.id)).Nodup := by
      rw [applyDelta_id_map]; exact hnd
    have hmem2 : ∃ a ∈ applyDelta db.accounts fa.id (-t.amount), a.id = ta.id := by
      refine ⟨_, List.mem_map_of_mem _ hta_mem, ?_⟩
      show ((if ta.id = fa.id then { ta with balance := ta.balance + -t.amount }
          else ta) : Account).id = ta.id
      rw [if_neg (fun e => hne e.symm)]
    unfold sumBalances
    rw [haccts,
      sum_applyDelta ta.id t.amount (applyDelta db.accounts fa.id (-t.amount)) hnd1 hmem2,
      sum_applyDelta fa.id (-t.amount) db.accounts hnd hmem1]
    ring

/-- C1 witness: the conservation theorem applied at the concrete fixture. -/
theorem transfer_conservation_witness :
    sumBalances (twoAccountDbAfter 7 8) = sumBalances (twoAccountDb 7 8) :=
  (transfer_conservation none (twoAccountDb 7 8) (twoAccountDbAfter 7 8) 7 1
    exTransfer exTxn (by decide) (by decide)).2.2.2

/-! ## Claim C2 -/

/-- The failure injected into the atomic unit: the ledger write raises. -/
def ledgerFailure : PyError := .dbError "ledger write failed"

/-- C2: when a step of the atomic unit raises after validation, the whole
unit rolls back — the committed state is exactly the pre-attempt state, so
balances are restored and no partial ledger rows persist — but the
`failed` Transaction row and failure audit row written by lines 233-256
sit in the same session and are rolled back with it: the committed state
holds no failed Transaction and no failure audit record, although the
session at the re-raise point contained both. -/
theorem failed_record_rolled_back :
    executeTransfer (some ledgerFailure) (twoAccountDb 7 8) 7 exTransfer 1 =
      (.error ledgerFailure, twoAccountDb 7 8) ∧
    ((executeTransferUnit (some ledgerFailure) (twoAccountDb 7 8) 7
        exTransfer 1).2.transactions.filter
      fun txn => txn.status == TransactionStatus.failed).length = 1 ∧
    ((executeTransferUnit (some ledgerFailure) (twoAccountDb 7 8) 7
        exTransfer 1).2.audit_logs.filter
      fun a => a.log_status == "failed").length = 1 ∧
    ((twoAccountDb 7 8).transactions.filter
      fun txn => txn.status == TransactionStatus.failed).length = 0 ∧
    ((twoAccountDb 7 8).audit_logs.filter
      fun a => a.log_status == "failed").length = 0 := by
  decide

/-! ## Claim C3 -/

/-- C3 counterexample: user 7 transfers from account 2 to account 1.  The
transfer completes, and the locks are acquired in the order [2, 1] —
source account first — which is not ascending by account id. -/
theorem lock_order_counterexample :
    lockAcquisitionOrder reverseDb 7 reverseTransfer = [2, 1] ∧
    ¬ List.Pairwise (· < ·) (lockAcquisitionOrder reverseDb 7 reverseTransfer) ∧
    (executeTransfer none reverseDb 7 reverseTransfer 1).1 =
      .ok ⟨1, 2, 1, 4000, "USD", .completed, none, 0⟩ := by
  decide

/-- C3 amended: the two `FOR UPDATE` locks are always acquired in transfer
order — source account first, destination second — regardless of the
accounts' ids. -/
theorem lock_order_source_first (db : Db) (uid : Nat) (t : TransferCreate)
    (fa ta : Account)
    (h1 : findFromAccount db uid t = some fa) (h2 : findToAccount db t = some ta) :
    lockAcquisitionOrder db uid t = [fa.id, ta.id] := by
  unfold lockAcquisitionOrder
  rw [h1, h2]

/-- C3 witness: the amended lock-order theorem at the reverse transfer. -/
theorem lock_order_source_first_witness :
    lockAcquisitionOrder reverseDb 7 reverseTransfer = [2, 1] :=
  lock_order_source_first reverseDb 7 reverseTransfer
    ⟨2, 7, "USD", 10000, false⟩ ⟨1, 8, "USD", 0, false⟩ (by decide) (by decide)

/-! ## Claim C5 -/

/-- C5: every completed transfer writes exactly one debit entry (on the
source account) and exactly one credit entry (on the destination
account); both carry the transaction's amount, and
`balance_after - balance_before` is `-amount` for the debit and `+amount`
for the credit (`ledger_service.py` lines 22-61). -/
theorem double_entry_ledger (inj : Option PyError) (db db' : Db) (uid n : Nat)
    (t : TransferCreate) (txn : Transaction)
    (hfresh : ∀ e ∈ db.ledger_entries, e.transaction_id ≠ db.next_tx_id)
    (h : executeTransfer inj db uid t n = (.ok txn, db')) :
    (db'.ledger_entries.filter fun e =>
        e.transaction_id == txn.id && e.entry_type == LedgerEntryType.debit).length = 1 ∧
    (db'.ledger_entries.filter fun e =>
        e.transaction_id == txn.id && e.entry_type == LedgerEntryType.credit).length = 1 ∧
    ∀ e ∈ db'.ledger_entries, e.transaction_id = txn.id →
      e.amount = txn.amount ∧
      (e.entry_type = .debit → e.account_id = txn.from_account_id ∧
        e.balance_after - e.balance_before = -txn.amount) ∧
      (e.entry_type = .credit → e.account_id = txn.to_account_id ∧
        e.balance_after - e.balance_before = txn.amount) := by
  obtain ⟨hinj, fa, ta, hv, hs⟩ := executeTransfer_ok h
  have hdb' : db' = (successState db uid fa ta t n).2 := congrArg Prod.snd hs
  have htxn : txn = (successState db uid fa ta t n).1 := congrArg Prod.fst hs
  have hid : txn.id = db.next_tx_id := by rw [htxn]; rfl
  have hamt : txn.amount = t.amount := by rw [htxn, successState_txn_amount]
  have hfrom_id : txn.from_account_id = fa.id := by rw [htxn]; rfl
  have hto_id : txn.to_account_id = ta.id := by rw [htxn]; rfl
  have hentries : db'.ledger_entries = db.ledger_entries ++
      [⟨db.next_tx_id, fa.id, .debit, t.amount, strUpper t.currency,
          fa.balance - t.amount + t.amount, fa.balance - t.amount⟩,
       ⟨db.next_tx_id, ta.id, .credit, t.amount, strUpper t.currency,
          ta.balance + t.amount - t.amount, ta.balance + t.amount⟩] := by
    rw [hdb']; rfl
  have hold : ∀ (p : LedgerEntry → Bool), (∀ e, p e = true → e.transaction_id = txn.id) →
      db.ledger_entries.filter p = [] := by
    intro p hp
    rw [List.filter_eq_nil_iff]
    intro e he hpe
    exact hfresh e he (hid ▸ hp e hpe)
  refine ⟨?_, ?_, ?_⟩
  · rw [hentries, List.filter_append,
      hold _ (fun e hpe => by
        simp only [Bool.and_eq_true, beq_iff_eq] at hpe; exact hpe.1)]
    simp [hid]
  · rw [hentries, List.filter_append,
      hold _ (fun e hpe => by
        simp only [Bool.and_eq_true, beq_iff_eq] at hpe; exact hpe.1)]
    simp [hid]
  · intro e he hetx
    rw [hentries] at he
    rcases List.mem_append.mp he with holdmem | hnew
    · exact absurd (hid ▸ hetx) (hfresh e holdmem)
    · rcases List.mem_cons.mp hnew with rfl | hnew2
      · refine ⟨?_, ?_, ?_⟩
        · show t.amount = txn.amount
          rw [hamt]
        · intro _
          refine ⟨?_, ?_⟩
          · show fa.id = txn.from_account_id
            rw [hfrom_id]
          · show (fa.balance - t.amount) - (fa.balance - t.amount + t.amount) = -txn.amount
            rw [hamt]; ring
        · intro hcontra
          simp at hcontra
      · rcases List.mem_cons.mp hnew2 with rfl | hnil
        · refine ⟨?_, ?_, ?_⟩
          · show t.amount = txn.amount
            rw [hamt]
          · intro hcontra
            simp at hcontra
          · intro _
            refine ⟨?_, ?_⟩
            · show ta.id = txn.to_account_id
              rw [hto_id]
            · show (ta.balance + t.amount) - (ta.balance + t.amount - t.amount) = txn.amount
              rw [hamt]; ring
        · simp at hnil

/-- C5 witness: the double-entry theorem at the concrete fixture. -/
theorem double_entry_ledger_witness :
    ((twoAccountDbAfter 7 8).ledger_entries.filter fun e =>
      e.transaction_id == exTxn.id && e.entry_type == LedgerEntryType.debit).length = 1 :=
  (double_entry_ledger none (twoAccountDb 7 8) (twoAccountDbAfter 7 8) 7 1
    exTransfer exTxn (by decide) (by decide)).1

/-! ## Claim C6 -/

theorem runAttempts_cons_retry {inj : Nat → Option PyError} {db : Db} {uid : Nat}
    {t : TransferCreate} {a : Nat} {e : PyError} {rest : List Nat}
    (he : executeTransfer (inj a) db uid t (a + 1) = (.error e, db))
    (hr : isRetryable e = true) (hne : rest.isEmpty = false) :
    runAttempts inj db uid t (a :: rest) = runAttempts inj db uid t rest := by
  rw [runAttempts, he]
  simp [hr, hne]

theorem runAttempts_last_retryable {inj : Nat → Option PyError} {db db2 : Db} {uid : Nat}
    {t : TransferCreate} {a : Nat} {e : PyError}
    (he : executeTransfer (inj a) db uid t (a + 1) = (.error e, db2))
    (hr : isRetryable e = true) :
    runAttempts inj db uid t [a] = (.error e, db2) := by
  rw [runAttempts, he]
  simp [hr]

/-- C6 counterexample: when each of the 3 attempts fails with the same
transient storage error, `transfer_money` re-raises that raw storage
error (transfer_service.py line 106): the service's caller receives the
storage-layer text, not the generic retry-exhausted `HTTPException` of
lines 113-117, which is unreachable. -/
theorem retry_exhaustion_counterexample :
    (transfer_money (fun _ => some (.dbError "deadlock detected on accounts"))
        (twoAccountDb 7 8) 7 exTransfer ⟨true, none⟩).1 =
      .error (.dbError "deadlock detected on accounts") ∧
    (transfer_money (fun _ => some (.dbError "deadlock detected on accounts"))
        (twoAccountDb 7 8) 7 exTransfer ⟨true, none⟩).1 ≠
      .error (.httpError 500 "Transfer failed after multiple retry attempts") := by
  decide

/-- C6 amended: on exhausting all 3 attempts on transient errors,
`transfer_money` re-raises the last raw storage error (the generic
retry-exhausted `HTTPException` is dead code); the application-level
`SQLAlchemyError` handler of `main.py` then reports it to the HTTP caller
as a generic 500 "Database error occurred" without storage details. -/
theorem retry_exhaustion_reraises (msgs : Nat → String) (db : Db) (uid : Nat)
    (t : TransferCreate) (fraud : FraudCheckResult) (fa ta : Account)
    (hcur : VALID_CURRENCIES.contains (strUpper t.currency) = true)
    (hfraud : fraud.allowed = true)
    (hval : validateTransfer db uid t = .ok (fa, ta)) :
    transfer_money (fun i => some (.dbError (msgs i))) db uid t fraud =
      (.error (.dbError (msgs 2)), db) ∧
    appExceptionResponse (.dbError (msgs 2)) = ⟨500, "Database error occurred"⟩ := by
  constructor
  · unfold transfer_money
    rw [if_neg (fun hcon => hcon hcur), if_neg (by simp [hfraud])]
    have hrange : List.range MAX_RETRIES = 0 :: 1 :: [2] := rfl
    have h0 : executeTransfer (some (.dbError (msgs 0))) db uid t (0 + 1) =
        (.error (.dbError (msgs 0)), db) := executeTransfer_inj_error hval
    have h1 : executeTransfer (some (.dbError (msgs 1))) db uid t (1 + 1) =
        (.error (.dbError (msgs 1)), db) := executeTransfer_inj_error hval
    have h2 : executeTransfer (some (.dbError (msgs 2))) db uid t (2 + 1) =
        (.error (.dbError (msgs 2)), db) := executeTransfer_inj_error hval
    rw [hrange,
      runAttempts_cons_retry h0 (rfl : isRetryable (.dbError (msgs 0)) = true)
        (rfl : (1 :: [2] : List Nat).isEmpty = false),
      runAttempts_cons_retry h1 (rfl : isRetryable (.dbError (msgs 1)) = true)
        (rfl : ([2] : List Nat).isEmpty = false),
      runAttempts_last_retryable h2 (rfl : isRetryable (.dbError (msgs 2)) = true)]
  · rfl

/-- C6 witness: the amended theorem at the concrete fixture. -/
theorem retry_exhaustion_reraises_witness :
    appExceptionResponse (.dbError "deadlock detected on accounts") =
      ⟨500, "Database error occurred"⟩ :=
  (retry_exhaustion_reraises (fun _ => "deadlock detected on accounts")
    (twoAccountDb 7 8) 7 exTransfer ⟨true, none⟩ ⟨1, 7, "USD", 10000, false⟩
    ⟨2, 8, "USD", 0, false⟩ (by decide) (by decide) (by decide)).2

/-! ## Claim C7 -/

/-- Source account holding exactly 1,000,000.00 USD. -/
def richDb : Db :=
  ⟨[⟨1, 7, "USD", 100000000, false⟩, ⟨2, 8, "USD", 0, false⟩], [], [], [], 1⟩

/-- C7: the amount rule rejects an amount exactly when it is below 0.01
or above 1,000,000.00 (in cents: below 1 or above 100000000); exactly
1,000,000.00 passes the amount check and the whole transfer succeeds when
otherwise valid, while 1,000,000.01 is rejected with the amount-limit
reason (`fraud_service.py` lines 66-81). -/
theorem fraud_amount_bounds :
    (∀ a : Int, (check_amount_limits a).allowed = false ↔
      (a < MIN_TRANSFER_AMOUNT ∨ MAX_TRANSFER_AMOUNT < a)) ∧
    check_amount_limits 100000000 = ⟨true, none⟩ ∧
    check_amount_limits 100000001 =
      ⟨false, some "Amount exceeds maximum transfer limit: 1000000.00"⟩ ∧
    (transfer_money (fun _ => none) richDb 7 ⟨1, 2, 100000000, "USD"⟩
        (check_transfer_limits 100000000 ⟨true, none⟩ ⟨true, none⟩ ⟨true, none⟩)).1 =
      .ok ⟨1, 1, 2, 100000000, "USD", .completed, none, 0⟩ ∧
    (transfer_money (fun _ => none) richDb 7 ⟨1, 2, 100000001, "USD"⟩
        (check_transfer_limits 100000001 ⟨true, none⟩ ⟨true, none⟩ ⟨true, none⟩)).1 =
      .error (.httpError 403 "Amount exceeds maximum transfer limit: 1000000.00") := by
  refine ⟨?_, by decide, by decide, by decide, by decide⟩
  intro a
  unfold check_amount_limits MIN_TRANSFER_AMOUNT MAX_TRANSFER_AMOUNT
  by_cases h1 : a < 1
  · simp [h1]
  · by_cases h2 : a > 100000000
    · simp [h1, h2]
    · simp [h1, h2]

/-! ## Claim C8 -/

/-- C8: for an existing account, `verify_ledger_balance` recomputes the
ledger balance as the sum of the account's credit entries minus the sum
of its debit entries, returns the stored balance, the ledger balance and
their absolute difference, and reports a match exactly when that
difference is below one cent (`ledger_service.py` lines 68-106). -/
theorem verify_balance_spec (db : Db) (i : Nat) (a : Account)
    (h : db.accounts.find? (fun x => x.id == i) = some a) :
    verify_ledger_balance db i = some
      ⟨decide (|a.balance - (creditSum db i - debitSum db i)| < 1),
        a.balance, creditSum db i - debitSum db i,
        |a.balance - (creditSum db i - debitSum db i)|,
        debitSum db i, creditSum db i⟩ ∧
    ((verify_ledger_balance db i).map (·.valid) = some true ↔
      |a.balance - (creditSum db i - debitSum db i)| < 1) := by
  have h1 : verify_ledger_balance db i = some
      ⟨decide (|a.balance - (creditSum db i - debitSum db i)| < 1),
        a.balance, creditSum db i - debitSum db i,
        |a.balance - (creditSum db i - debitSum db i)|,
        debitSum db i, creditSum db i⟩ := by
    unfold verify_ledger_balance
    rw [h]
  refine ⟨h1, ?_⟩
  rw [h1]
  simp

/-- C8 witness: the verification theorem at the fixture's destination
account, whose stored balance agrees with its ledger entries. -/
theorem verify_balance_spec_witness :
    (verify_ledger_balance (twoAccountDbAfter 7 8) 2).map (·.valid) = some true :=
  ((verify_balance_spec (twoAccountDbAfter 7 8) 2 ⟨2, 8, "USD", 4000, false⟩
    (by decide)).2).mpr (by decide)

/-! ## Claim C9 -/

/-- C9: ownership is checked asymmetrically.  With the source account
owned by the requester `u`, the transfer to a destination owned by ANY
user `v` completes; when the source account belongs to some other user
`w ≠ u`, the service raises 404 "Source account not found or does not
belong to user"; a soft-deleted destination raises 404 "Destination
account not found" — destination ownership is never consulted
(`transfer_service.py` lines 132-155). -/
theorem ownership_asymmetry (u v w : Nat) (hw : w ≠ u) :
    executeTransfer none (twoAccountDb u v) u exTransfer 1 =
      (.ok exTxn, twoAccountDbAfter u v) ∧
    executeTransfer none (twoAccountDb w v) u exTransfer 1 =
      (.error (.httpError 404 "Source account not found or does not belong to user"),
        twoAccountDb w v) ∧
    executeTransfer none (delDestDb u v) u exTransfer 1 =
      (.error (.httpError 404 "Destination account not found"), delDestDb u v) := by
  have hU : strUpper "USD" = "USD" := by decide
  refine ⟨?_, ?_, ?_⟩
  · simp [executeTransfer, executeTransferUnit, transaction_context, validateTransfer,
      findFromAccount, findToAccount, twoAccountDb, exTransfer, successState, applyDelta,
      create_ledger_entries, log_transfer, exTxn, twoAccountDbAfter, List.find?, strUpper]
  · have hwu : (w == u) = false := by simp [hw]
    simp [executeTransfer, executeTransferUnit, transaction_context, validateTransfer,
      findFromAccount, findToAccount, twoAccountDb, exTransfer, List.find?, hwu, hU]
  · simp [executeTransfer, executeTransferUnit, transaction_context, validateTransfer,
      findFromAccount, findToAccount, delDestDb, exTransfer, List.find?, hU]

/-- C9 witness: destination owned by user 9 (neither the requester 7 nor
the source owner), transfer accepted. -/
theorem ownership_asymmetry_witness :
    executeTransfer none (twoAccountDb 7 9) 7 exTransfer 1 =
      (.ok exTxn, twoAccountDbAfter 7 9) :=
  (ownership_asymmetry 7 9 8 (by decide)).1

/-! ## Claim C4 -/

/-- C4: two sequential calls of the `POST /transfers` endpoint with the
same user, idempotency key and payload create exactly one Transaction and
return identical responses: the first call commits the transfer and
caches the serialized response, the second returns the cached response
without touching the database again (transfers.py lines 40-81,
idempotency.py lines 17-58 and 82-102). -/
theorem idempotent_replay (inj : Nat → Option PyError) (fraud : FraudCheckResult)
    (kv : Kv) (db db1 : Db) (uid : Nat) (k : String) (t : TransferCreate)
    (txn : Transaction)
    (hklen : ¬ k.length > 255)
    (hnoproc : kvGet kv (.processing uid k) = none)
    (hnocache : kvGet kv (.idem uid k) = none)
    (hok : kv.set_fails = false)
    (hxfer : transfer_money inj db uid t fraud = (.ok txn, db1)) :
    transferEndpoint inj fraud kv db uid (some k) t =
      (.ok (toResponse txn), endpointCacheAfter kv uid k (toResponse txn), db1) ∧
    transferEndpoint inj fraud (endpointCacheAfter kv uid k (toResponse txn)) db1 uid
        (some k) t =
      (.ok (toResponse txn), endpointCacheAfter kv uid k (toResponse txn), db1) ∧
    db1.transactions = db.transactions ++ [txn] := by
  refine ⟨endpoint_first_call hklen hnoproc hnocache hxfer, ?_, ?_⟩
  · exact endpoint_replay_call hklen
      (endpointCacheAfter_get_idem kv uid k _ hok)
      (endpointCacheAfter_get_processing kv uid k _)
  · obtain ⟨fa, ta, n, hv, hs⟩ := transfer_money_ok hxfer
    have hdb : db1 = (successState db uid fa ta t n).2 := congrArg Prod.snd hs
    have htx : txn = (successState db uid fa ta t n).1 := congrArg Prod.fst hs
    rw [hdb, htx, successState_db_transactions]

/-- C4 witness: the replay call of the idempotency theorem at the
concrete fixture with key "k1". -/
theorem idempotent_replay_witness :
    transferEndpoint (fun _ => none) ⟨true, none⟩
        (endpointCacheAfter ⟨[], false⟩ 7 "k1" (toResponse exTxn)) (twoAccountDbAfter 7 8)
        7 (some "k1") exTransfer =
      (.ok (toResponse exTxn), endpointCacheAfter ⟨[], false⟩ 7 "k1" (toResponse exTxn),
        twoAccountDbAfter 7 8) :=
  (idempotent_replay (fun _ => none) ⟨true, none⟩ ⟨[], false⟩ (twoAccountDb 7 8)
    (twoAccountDbAfter 7 8) 7 "k1" exTransfer exTxn (by decide) (by decide) (by decide)
    rfl (by decide)).2.1

/-! ## Claim C10 -/

theorem kvSet_noop (kv : Kv) (k : CacheKey) (v : CacheVal)
    (hfail : kv.set_fails = true) : kvSet kv k v = kv := by
  unfold kvSet
  rw [if_pos hfail]

/-- C10: when the cache store's writes fail (swallowed by
`store_response`'s bare except and by `RedisClient.set` returning False
on `redis.RedisError`), a successful transfer still returns its success
response to the caller: no cached response is persisted, yet the endpoint
result is `ok` (idempotency.py lines 82-102, transfers.py lines 69-87). -/
theorem store_failure_swallowed (inj : Nat → Option PyError) (fraud : FraudCheckResult)
    (kv : Kv) (db db1 : Db) (uid : Nat) (k : String) (t : TransferCreate)
    (txn : Transaction)
    (hklen : ¬ k.length > 255)
    (hnoproc : kvGet kv (.processing uid k) = none)
    (hnocache : kvGet kv (.idem uid k) = none)
    (hfail : kv.set_fails = true)
    (hxfer : transfer_money inj db uid t fraud = (.ok txn, db1)) :
    transferEndpoint inj fraud kv db uid (some k) t =
      (.ok (toResponse txn), endpointCacheAfter kv uid k (toResponse txn), db1) ∧
    kvGet (endpointCacheAfter kv uid k (toResponse txn)) (.idem uid k) = none := by
  refine ⟨endpoint_first_call hklen hnoproc hnocache hxfer, ?_⟩
  unfold endpointCacheAfter clear_processing store_response mark_processing
  rw [kvGet_delete_ne _ _ _ (by simp),
    kvSet_noop _ _ _ (by rw [kvSet_set_fails]; exact hfail),
    kvSet_noop _ _ _ hfail]
  exact hnocache

/-- C10 witness: the endpoint at the concrete fixture with an all-failing
cache store still returns the success response. -/
theorem store_failure_swallowed_witness :
    transferEndpoint (fun _ => none) ⟨true, none⟩ ⟨[], true⟩ (twoAccountDb 7 8) 7
        (some "k1") exTransfer =
      (.ok (toResponse exTxn), endpointCacheAfter ⟨[], true⟩ 7 "k1" (toResponse exTxn),
        twoAccountDbAfter 7 8) :=
  (store_failure_swallowed (fun _ => none) ⟨true, none⟩ ⟨[], true⟩ (twoAccountDb 7 8)
    (twoAccountDbAfter 7 8) 7 "k1" exTransfer exTxn (by decide) (by decide) (by decide)
    rfl (by decide)).1

end Bankir
